import Mathlib

/-!
Verification development for the CherryPy OpenTelemetry instrumentation
(`opentelemetry/instrumentation/cherrypy/__init__.py`).

The module is embedded shallowly: the `_InstrumentationHook` lifecycle
callbacks become Lean functions from an explicit hook state (the tool
instance's attributes) and per-call framework context to `Except PyErr`
of a new state together with a trace of observable effects (metric adds,
histogram records, span activation enter/exit, header injection, ...).
Reading an instance attribute that was never assigned models Python's
`AttributeError`.
-/

namespace CherryPyOtel

/-- Semantic-convention attribute maps, as ordered key/value lists. -/
abbrev Attrs := List (String × String)

/-- A captured application exception (its type/value identity). -/
structure Exc where
  excName : String
  excMsg : String
deriving DecidableEq, Repr

/-- Span kinds relevant to this instrumentation. -/
inductive SpanKind
  | server
  | internal
deriving DecidableEq, Repr

/-- The span object handed back by `_start_internal_or_server_span`. -/
structure Spn where
  id : Nat
  recording : Bool
  kind : SpanKind
deriving DecidableEq, Repr

/-- The slice of the per-request WSGI environ the hook reads:
`PATH_INFO`, the standard request attributes that
`otel_wsgi.collect_request_attributes` would compute from it, and the
custom request-header attributes
`otel_wsgi.collect_custom_request_headers_attributes` would compute. -/
structure Environ where
  pathInfo : String
  requestAttrs : Attrs
  customReqHeaders : Attrs
deriving DecidableEq, Repr

/-- Occurrence of `pat` as a contiguous sublist of the second list. -/
def hasSub (pat : List Char) : List Char → Bool
  | [] => pat.isEmpty
  | c :: t => List.isPrefixOf pat (c :: t) || hasSub pat t

/-- Modelled from the spec: `opentelemetry.util.http` exclusion policy
(`ExcludeList.url_disabled`), external to `src/` — a set of
path-matching rules; a URL is disabled when some pattern occurs in it. -/
def url_disabled (excluded : List String) (path : String) : Bool :=
  excluded.any (fun pat => hasSub pat.toList path.toList)

/-- Modelled from the spec: `otel_wsgi.collect_request_attributes`,
external to `src/` — computes the standard HTTP request attributes
(method, scheme, host, target, flavor, server name, port) from the
environ; the model carries them precomputed on the environ. -/
def collect_request_attributes (e : Environ) : Attrs :=
  e.requestAttrs

/-- Modelled from the spec: the active-request attribute keys
(`otel_wsgi._active_requests_count_attrs`), external to `src/`. -/
def activeRequestsCountKeys : List String :=
  ["http.method", "http.host", "http.scheme", "http.flavor", "http.server_name"]

/-- Modelled from the spec: the duration attribute keys
(`otel_wsgi._duration_attrs`), external to `src/`. -/
def durationKeys : List String :=
  ["http.method", "http.host", "http.scheme", "http.flavor",
   "http.server_name", "net.host.port", "http.status_code"]

/-- Modelled from the spec: `otel_wsgi._parse_active_request_count_attrs`,
external to `src/` — restricts the request attributes to the
active-request dimension subset. -/
def parse_active_request_count_attrs (attrs : Attrs) : Attrs :=
  attrs.filter (fun kv => activeRequestsCountKeys.contains kv.1)

/-- Modelled from the spec: `otel_wsgi._parse_duration_attrs`,
external to `src/` — restricts the request attributes to the duration
dimension subset. -/
def parse_duration_attrs (attrs : Attrs) : Attrs :=
  attrs.filter (fun kv => durationKeys.contains kv.1)

/-- Modelled from the spec: `otel_wsgi._parse_status_code`, external to
`src/` — extracts the leading numeric status code of a status line such
as `"200 OK"`, or `none` if it does not parse. -/
def parse_status_code (status : String) : Option Nat :=
  match status.toList.takeWhile Char.isDigit with
  | [] => none
  | ds => some (ds.foldl (fun acc c => acc * 10 + (c.toNat - 48)) 0)

/-- Python dict item assignment `d[k] = v` on an attribute map. -/
def setAttr (a : Attrs) (k v : String) : Attrs :=
  if a.any (fun kv => kv.1 = k) then
    a.map (fun kv => if kv.1 = k then (k, v) else kv)
  else
    a ++ [(k, v)]

/-- The instance attributes `_on_start_resource_hook` assigns on the tool
(`self.span`, `self.token`, `self.activation`, `self.start`,
`self.exception`, `self.duration_attrs`,
`self.active_requests_count_attrs`).  An outer `none` means the
attribute was never assigned, so reading it raises `AttributeError`. -/
structure Record where
  span : Option Spn
  token : Option (Option Nat)
  activation : Option Nat
  start : Option ℚ
  exception : Option (Option Exc)
  duration_attrs : Option Attrs
  active_requests_count_attrs : Option Attrs
deriving DecidableEq, Repr

/-- A fresh tool instance: no per-request attribute assigned yet. -/
def emptyRecord : Record :=
  { span := none, token := none, activation := none, start := none,
    exception := none, duration_attrs := none,
    active_requests_count_attrs := none }

/-- The mutable state of the single shared `_InstrumentationHook`
instance: the enable flag `_is_instrumented_by_opentelemetry` and the
per-request scratch attributes, which the source stores on `self`. -/
structure HookState where
  is_instrumented_by_opentelemetry : Bool
  record : Record
deriving DecidableEq, Repr

/-- Construction-time configuration of the hook. -/
structure Config where
  excluded_urls : List String
  has_request_hook : Bool
  has_response_hook : Bool
  has_response_propagator : Bool
deriving DecidableEq, Repr

/-- Python exceptions the callbacks themselves can raise. -/
inductive PyErr
  | attributeError (attrName : String)
deriving DecidableEq, Repr

/-- Observable side effects of a callback invocation, in order. -/
inductive Effect
  | spanStarted (s : Spn)
  | requestHookCall
  | counterAdd (delta : Int) (a : Attrs)
  | setSpanAttributes (a : Attrs)
  | setCustomRequestHeadersAttributes (a : Attrs)
  | activationEnter (spanId : Nat)
  | responsePropagationInject
  | addResponseAttributes (status : String)
  | setCustomResponseHeadersAttributes (a : Attrs)
  | activationExit (spanId : Nat) (exc : Option Exc)
  | detachToken (t : Nat)
  | histogramRecord (value : Int) (a : Attrs)
deriving DecidableEq, Repr

/-- Per-call inputs of `_on_start_resource_hook`: the request environ,
the span and context token returned by `_start_internal_or_server_span`
(an external collaborator: the propagation layer decides SERVER vs
INTERNAL kind), and the monotonic reading `default_timer()` returns. -/
structure StartCtx where
  environ : Environ
  span : Spn
  token : Option Nat
  now : ℚ
deriving DecidableEq, Repr

/-- Per-call inputs of `_on_end_resource_hook`: the response status line
and the custom response-header attributes
`otel_wsgi.collect_custom_response_headers_attributes` would compute. -/
structure ResponseCtx where
  status : String
  customRespHeaders : Attrs
deriving DecidableEq, Repr

/-- The record value `_on_start_resource_hook` leaves on the instance. -/
def startedRecord (c : StartCtx) : Record :=
  { span := some c.span,
    token := some c.token,
    activation := some c.span.id,
    start := some c.now,
    exception := some none,
    duration_attrs := some (parse_duration_attrs (collect_request_attributes c.environ)),
    active_requests_count_attrs :=
      some (parse_active_request_count_attrs (collect_request_attributes c.environ)) }

/-- The effect trace of an eligible `_on_start_resource_hook` run. -/
def startEffects (cfg : Config) (c : StartCtx) : List Effect :=
  [Effect.spanStarted c.span]
  ++ (if cfg.has_request_hook then [Effect.requestHookCall] else [])
  ++ [Effect.counterAdd 1
        (parse_active_request_count_attrs (collect_request_attributes c.environ))]
  ++ (if c.span.recording then
        [Effect.setSpanAttributes (collect_request_attributes c.environ)]
        ++ (if c.span.recording = true ∧ c.span.kind = SpanKind.server
              ∧ c.environ.customReqHeaders ≠ [] then
              [Effect.setCustomRequestHeadersAttributes c.environ.customReqHeaders]
            else [])
      else [])
  ++ [Effect.activationEnter c.span.id]

/-- Callback `_on_start_resource_hook`: the request-start lifecycle callback. -/
def on_start_resource_hook (cfg : Config) (st : HookState) (c : StartCtx) :
    Except PyErr (HookState × List Effect) :=
  if url_disabled cfg.excluded_urls c.environ.pathInfo then
    .ok (st, [])
  else if st.is_instrumented_by_opentelemetry = false then
    .ok (st, [])
  else
    .ok ({ st with record := startedRecord c }, startEffects cfg c)

/-- Callback `_before_finalize_hook`: inject outbound propagation headers
when a global response propagator is configured. -/
def before_finalize_hook (cfg : Config) (st : HookState) (path : String) :
    Except PyErr (HookState × List Effect) :=
  if url_disabled cfg.excluded_urls path then
    .ok (st, [])
  else if st.is_instrumented_by_opentelemetry = false then
    .ok (st, [])
  else if cfg.has_response_propagator then
    .ok (st, [Effect.responsePropagationInject])
  else
    .ok (st, [])

/-- The custom response-header effects of `_on_end_resource_hook`. -/
def customRespEffects (sp : Spn) (c : ResponseCtx) : List Effect :=
  if sp.recording = true ∧ sp.kind = SpanKind.server ∧ c.customRespHeaders ≠ [] then
    [Effect.setCustomResponseHeadersAttributes c.customRespHeaders]
  else []

/-- Callback `_on_end_resource_hook`: attach response attributes to the
span and merge the parsed status code into `self.duration_attrs`. -/
def on_end_resource_hook (cfg : Config) (st : HookState) (path : String)
    (c : ResponseCtx) : Except PyErr (HookState × List Effect) :=
  if url_disabled cfg.excluded_urls path then
    .ok (st, [])
  else if st.is_instrumented_by_opentelemetry = false then
    .ok (st, [])
  else
    match st.record.span with
    | none => .error (PyErr.attributeError "span")
    | some sp =>
      match parse_status_code c.status with
      | some code =>
        match st.record.duration_attrs with
        | none => .error (PyErr.attributeError "duration_attrs")
        | some da =>
          let da2 := setAttr da "http.status_code" (toString code)
          .ok ({ st with record := { st.record with duration_attrs := some da2 } },
               [Effect.addResponseAttributes c.status] ++ customRespEffects sp c)
      | none =>
        .ok (st, [Effect.addResponseAttributes c.status] ++ customRespEffects sp c)

/-- Callback `_after_error_response_hook`: capture the propagating
exception that `exc_info()` reports into `self.exception`, without
suppressing it. -/
def after_error_response_hook (cfg : Config) (st : HookState) (path : String)
    (excInfo : Option Exc) : Except PyErr (HookState × List Effect) :=
  if url_disabled cfg.excluded_urls path then
    .ok (st, [])
  else if st.is_instrumented_by_opentelemetry = false then
    .ok (st, [])
  else
    .ok ({ st with record := { st.record with exception := some excInfo } }, [])

/-- Python's `round` (banker's rounding: ties go to the even integer),
on the rational model of the float timer values. -/
def pyRound (q : ℚ) : ℤ :=
  let f : ℤ := q.floor
  let frac : ℚ := q - (f : ℚ)
  if frac < 1/2 then f
  else if 1/2 < frac then f + 1
  else if f % 2 = 0 then f else f + 1

/-- The duration computed at request end:
`max(round((default_timer() - self.start) * 1000), 0)`. -/
def elapsedMs (now start : ℚ) : ℤ :=
  max (pyRound ((now - start) * 1000)) 0

/-- Callback `_on_end_request_hook`: exit the span activation (with the captured
exception, if any), detach the context token, record the duration and
decrement the active-request counter.  Attribute reads follow the
source's order, so the first missing attribute raises. -/
def on_end_request_hook (cfg : Config) (st : HookState) (path : String)
    (now : ℚ) : Except PyErr (HookState × List Effect) :=
  if url_disabled cfg.excluded_urls path then
    .ok (st, [])
  else if st.is_instrumented_by_opentelemetry = false then
    .ok (st, [])
  else
    match st.record.exception with
    | none => .error (PyErr.attributeError "exception")
    | some excVal =>
      match st.record.activation with
      | none => .error (PyErr.attributeError "activation")
      | some act =>
        match st.record.token with
        | none => .error (PyErr.attributeError "token")
        | some tokVal =>
          match st.record.start with
          | none => .error (PyErr.attributeError "start")
          | some t0 =>
            match st.record.duration_attrs with
            | none => .error (PyErr.attributeError "duration_attrs")
            | some da =>
              match st.record.active_requests_count_attrs with
              | none => .error (PyErr.attributeError "active_requests_count_attrs")
              | some ara =>
                .ok (st,
                  [Effect.activationExit act excVal]
                  ++ (match tokVal with
                      | some t => [Effect.detachToken t]
                      | none => [])
                  ++ [Effect.histogramRecord (elapsedMs now t0) da,
                      Effect.counterAdd (-1) ara])

/-- The full lifecycle of one request on the shared hook state, in the
framework's guaranteed order: start, before-finalize, response-ready,
error-observed (only when an exception propagated) and request-end.
`errorStep = some e` means `_after_error_response_hook` fired with
`exc_info()` reporting `e`. -/
def runLifecycle (cfg : Config) (st : HookState) (sc : StartCtx)
    (rc : ResponseCtx) (errorStep : Option (Option Exc)) (endNow : ℚ) :
    Except PyErr (HookState × List Effect) := do
  let (s1, e1) ← on_start_resource_hook cfg st sc
  let (s2, e2) ← before_finalize_hook cfg s1 sc.environ.pathInfo
  let (s3, e3) ← on_end_resource_hook cfg s2 sc.environ.pathInfo rc
  let (s4, e4) ← match errorStep with
    | none => pure (s3, ([] : List Effect))
    | some exc => after_error_response_hook cfg s3 sc.environ.pathInfo exc
  let (s5, e5) ← on_end_request_hook cfg s4 sc.environ.pathInfo endNow
  pure (s5, e1 ++ e2 ++ e3 ++ e4 ++ e5)

/-- The effect trace of an eligible `_before_finalize_hook` run. -/
def bfEffects (cfg : Config) : List Effect :=
  if cfg.has_response_propagator then [Effect.responsePropagationInject] else []

/-- The duration attribute set after `_on_end_resource_hook` merged the
parsed status code. -/
def finalDurationAttrs (env : Environ) (rc : ResponseCtx) : Attrs :=
  match parse_status_code rc.status with
  | some code =>
      setAttr (parse_duration_attrs (collect_request_attributes env))
        "http.status_code" (toString code)
  | none => parse_duration_attrs (collect_request_attributes env)

/-- The effect trace of an eligible `_on_end_request_hook` run on a
fully-populated record. -/
def endRequestEffects (sc : StartCtx) (exc : Option Exc) (da : Attrs)
    (now : ℚ) : List Effect :=
  [Effect.activationExit sc.span.id exc]
  ++ (match sc.token with
      | some t => [Effect.detachToken t]
      | none => [])
  ++ [Effect.histogramRecord (elapsedMs now sc.now) da,
      Effect.counterAdd (-1)
        (parse_active_request_count_attrs (collect_request_attributes sc.environ))]

/-- The hook state after a complete eligible lifecycle. -/
def finalState (st : HookState) (sc : StartCtx) (rc : ResponseCtx)
    (errorStep : Option (Option Exc)) : HookState :=
  { st with record :=
      { startedRecord sc with
          duration_attrs := some (finalDurationAttrs sc.environ rc),
          exception := some (errorStep.getD none) } }

/-- Recognizes active-request counter effects. -/
def isCounterEffect : Effect → Bool
  | .counterAdd _ _ => true
  | _ => false

/-- Counter contribution of one effect. -/
def counterDelta : Effect → Int
  | .counterAdd d _ => d
  | _ => 0

/-- Net effect of a trace on the active-request counter. -/
def netCounter (es : List Effect) : Int :=
  (es.map counterDelta).sum

/-- Recognizes span-activation exit effects. -/
def isActivationExit : Effect → Bool
  | .activationExit _ _ => true
  | _ => false

/-- Recognizes duration-histogram record effects. -/
def isHistogramRecord : Effect → Bool
  | .histogramRecord _ _ => true
  | _ => false

/-- Span status codes relevant here. -/
inductive SpanStatusCode
  | unset
  | error
deriving DecidableEq, Repr

/-- Modelled from the spec: the contract of
`trace.use_span(..., end_on_exit=True)` — exiting the activation with no
exception leaves the span status UNSET with no description; exiting with
an exception marks the span status ERROR. -/
def activation_exit_status (exc : Option Exc) : SpanStatusCode :=
  match exc with
  | none => SpanStatusCode.unset
  | some _ => SpanStatusCode.error

/-- Python `dict.pop(key, None)`: the popped value (or `none`) and the
remaining dict. -/
def dictPop (d : List (String × Nat)) (k : String) :
    Option Nat × List (String × Nat) :=
  match d.find? (fun kv => kv.1 = k) with
  | some kv => (some kv.2, d.filter (fun kv2 => kv2.1 ≠ k))
  | none => (none, d)

/-- What `_InstrumentationHook.__init__` establishes: which providers the
tracer and meter are obtained from (`none` = the process-wide global
provider) and the metric instruments created on the meter. -/
structure InitResult where
  tracer_provider : Option Nat
  meter_provider : Option Nat
  histogram_name : String
  histogram_unit : String
  counter_name : String
  counter_unit : String
deriving DecidableEq, Repr

/-- Constructor `_InstrumentationHook.__init__` on its keyword arguments: the source
pops the key `tracer_provider`, then the key `metr_provider` (sic), and
creates the two instruments with fixed names and units. -/
def hook_init (kwargs : List (String × Nat)) : InitResult :=
  let p1 := dictPop kwargs "tracer_provider"
  let p2 := dictPop p1.2 "metr_provider"
  { tracer_provider := p1.1,
    meter_provider := p2.1,
    histogram_name := "http.server.duration",
    histogram_unit := "ms",
    counter_name := "http.server.active_requests",
    counter_unit := "requests" }

/-- Kinds of objects handed to the wrapped `cherrypy.expose`.  The
decoratable kinds of the source's `isinstance` check are plain
functions, bound methods and classes; anything else (such as a string
alias passed positionally) is not decoratable. -/
inductive Handler
  | func (id : Nat)
  | method (id : Nat)
  | cls (id : Nat)
  | other (id : Nat)
deriving DecidableEq, Repr

/-- The source's `isinstance(func, (FunctionType, MethodType, type))`. -/
def decoratable : Handler → Bool
  | .func _ => true
  | .method _ => true
  | .cls _ => true
  | .other _ => false

/-- A handler as exposed by the original `cherrypy.expose`: whether it
was first wrapped with the lifecycle hook trigger (the tool decorator),
and under which alias it was exposed. -/
structure Exposed where
  handler : Handler
  wrapped : Bool
  aliasName : Option String
deriving DecidableEq, Repr

/-- What one call of `_Instrumented_expose` returns. -/
inductive ExposeResult
  | exposed (e : Exposed)
  | returnedSelf
deriving DecidableEq, Repr

/-- Wrapper `_Instrumented_expose(func, alias)`: when `func` is a decoratable
object it is wrapped with the tool decorator and passed to the original
expose with the given alias; otherwise the source computes
`original_expose(func, alias)` and a local closure, but returns the
outer `_Instrumented_expose` function itself. -/
def instrumented_expose (func : Option Handler) (aliasArg : Option String) :
    ExposeResult :=
  match func with
  | some f =>
    if decoratable f then
      ExposeResult.exposed { handler := f, wrapped := true, aliasName := aliasArg }
    else
      ExposeResult.returnedSelf
  | none => ExposeResult.returnedSelf

/-- The parameterized decoration form: `expose(alias=...)` followed by
applying whatever it returned to the handler `h`.  Applying the returned
`_Instrumented_expose` to `h` re-enters it with `alias` defaulting to
`None`. -/
def parameterized_expose_apply (aliasArg : Option String) (h : Handler) :
    ExposeResult :=
  match instrumented_expose none aliasArg with
  | ExposeResult.returnedSelf => instrumented_expose (some h) none
  | r => r

/-- The frozen state `CherryPyInstrumentor` keeps: the shared hook, the
replaced `cherrypy.expose`, the tool registration and the handlers
already exposed. -/
structure InstrumentorState where
  hook : HookState
  exposeWrapped : Bool
  toolRegistered : Bool
  exposedHandlers : List Exposed
deriving DecidableEq, Repr

/-- Uninstaller `CherryPyInstrumentor._uninstrument`: flips
`_is_instrumented_by_opentelemetry` to `False` and nothing else — no
hook is unregistered and no exposed handler is touched. -/
def uninstrument (s : InstrumentorState) : InstrumentorState :=
  { s with hook := { s.hook with is_instrumented_by_opentelemetry := false } }

/-- A configuration with no exclusions and no optional collaborators. -/
def cfg0 : Config :=
  { excluded_urls := [], has_request_hook := false, has_response_hook := false,
    has_response_propagator := false }

/-- A freshly instrumented hook state. -/
def st0 : HookState :=
  { is_instrumented_by_opentelemetry := true, record := emptyRecord }

/-- Environ of a request A to path `/a`. -/
def envA : Environ :=
  { pathInfo := "/a", requestAttrs := [("http.method", "GET"), ("http.host", "hosta:80")],
    customReqHeaders := [] }

/-- Environ of a request B to path `/b`, with different attributes. -/
def envB : Environ :=
  { pathInfo := "/b", requestAttrs := [("http.method", "POST"), ("http.host", "hostb:80")],
    customReqHeaders := [] }

/-- The span of request A. -/
def spanA : Spn := { id := 1, recording := true, kind := SpanKind.server }

/-- The span of request B. -/
def spanB : Spn := { id := 2, recording := true, kind := SpanKind.server }

/-- Start context of request A. -/
def scA : StartCtx := { environ := envA, span := spanA, token := some 11, now := 0 }

/-- Start context of request B. -/
def scB : StartCtx := { environ := envB, span := spanB, token := some 22, now := 0 }

/-- A plain 200 response. -/
def rcA : ResponseCtx := { status := "200 OK", customRespHeaders := [] }

/-- A sample application exception. -/
def excBoom : Exc := { excName := "ValueError", excMsg := "boom" }

/-- A configuration excluding URLs containing `ping`. -/
def cfgPing : Config :=
  { excluded_urls := ["ping"], has_request_hook := false, has_response_hook := false,
    has_response_propagator := false }

/-- Environ of a request to the excluded path `/ping`. -/
def envPing : Environ :=
  { pathInfo := "/ping", requestAttrs := [("http.method", "GET")], customReqHeaders := [] }

/-- Start context of the excluded request. -/
def scPing : StartCtx := { environ := envPing, span := spanA, token := none, now := 0 }

/-- A hook state still holding the exception captured for an earlier
request. -/
def stWithExc : HookState :=
  { is_instrumented_by_opentelemetry := true,
    record := { emptyRecord with exception := some (some excBoom) } }

/-- Characterization of the full eligible lifecycle: with an
unstopped instrumentation flag and a non-excluded path, every callback
succeeds and the run produces the start, finalize, response, error and
end effect traces in order, ending in the fully-populated state. -/
theorem runLifecycle_eligible (cfg : Config) (flag : Bool) (rec : Record)
    (sc : StartCtx) (rc : ResponseCtx) (errorStep : Option (Option Exc)) (endNow : ℚ)
    (hx : url_disabled cfg.excluded_urls sc.environ.pathInfo = false)
    (hi : flag = true) :
    runLifecycle cfg ⟨flag, rec⟩ sc rc errorStep endNow =
      .ok (finalState ⟨flag, rec⟩ sc rc errorStep,
           startEffects cfg sc ++ bfEffects cfg
           ++ ([Effect.addResponseAttributes rc.status] ++ customRespEffects sc.span rc)
           ++ endRequestEffects sc (errorStep.getD none)
                (finalDurationAttrs sc.environ rc) endNow) := by
  subst hi
  cases errorStep <;>
    cases h : parse_status_code rc.status <;>
      cases hp : cfg.has_response_propagator <;>
      simp [runLifecycle, on_start_resource_hook, before_finalize_hook,
            on_end_resource_hook, after_error_response_hook, on_end_request_hook,
            hx, h, hp, startedRecord, finalState, finalDurationAttrs,
            endRequestEffects, bfEffects, elapsedMs,
            Bind.bind, Except.bind, Functor.map, Except.map, Pure.pure, Except.pure]

/-- Counter effects contained in the start trace: exactly the `+1`. -/
theorem filter_counter_startEffects (cfg : Config) (c : StartCtx) :
    (startEffects cfg c).filter isCounterEffect =
      [Effect.counterAdd 1 (parse_active_request_count_attrs (collect_request_attributes c.environ))] := by
  unfold startEffects
  split_ifs <;> simp [isCounterEffect]

/-- Counter effects contained in the finalize trace: none. -/
theorem filter_counter_bfEffects (cfg : Config) :
    (bfEffects cfg).filter isCounterEffect = [] := by
  unfold bfEffects
  split_ifs <;> simp [isCounterEffect]

/-- Counter effects contained in the response-header trace: none. -/
theorem filter_counter_customRespEffects (sp : Spn) (rc : ResponseCtx) :
    (customRespEffects sp rc).filter isCounterEffect = [] := by
  unfold customRespEffects
  split_ifs <;> simp [isCounterEffect]

/-- Counter effects contained in the end trace: exactly the `-1`. -/
theorem filter_counter_endRequestEffects (sc : StartCtx) (exc : Option Exc)
    (da : Attrs) (now : ℚ) :
    (endRequestEffects sc exc da now).filter isCounterEffect =
      [Effect.counterAdd (-1)
        (parse_active_request_count_attrs (collect_request_attributes sc.environ))] := by
  unfold endRequestEffects
  cases h : sc.token <;> simp [h, isCounterEffect]

/-- The net counter value is carried entirely by the counter effects. -/
theorem netCounter_filter (es : List Effect) :
    netCounter (es.filter isCounterEffect) = netCounter es := by
  induction es with
  | nil => rfl
  | cons e t ih =>
    cases e <;> simp [List.filter_cons, isCounterEffect, netCounter, counterDelta] at ih ⊢ <;>
      omega

/-- Activation-exit effects contained in the start trace: none. -/
theorem filter_exit_startEffects (cfg : Config) (c : StartCtx) :
    (startEffects cfg c).filter isActivationExit = [] := by
  unfold startEffects
  split_ifs <;> simp [isActivationExit]

/-- Activation-exit effects contained in the finalize trace: none. -/
theorem filter_exit_bfEffects (cfg : Config) :
    (bfEffects cfg).filter isActivationExit = [] := by
  unfold bfEffects
  split_ifs <;> simp [isActivationExit]

/-- Activation-exit effects contained in the response-header trace: none. -/
theorem filter_exit_customRespEffects (sp : Spn) (rc : ResponseCtx) :
    (customRespEffects sp rc).filter isActivationExit = [] := by
  unfold customRespEffects
  split_ifs <;> simp [isActivationExit]

/-- Activation-exit effects contained in the end trace: exactly one. -/
theorem filter_exit_endRequestEffects (sc : StartCtx) (exc : Option Exc)
    (da : Attrs) (now : ℚ) :
    (endRequestEffects sc exc da now).filter isActivationExit =
      [Effect.activationExit sc.span.id exc] := by
  unfold endRequestEffects
  cases h : sc.token <;> simp [h, isActivationExit]

/-- With the flag cleared, the start callback is a no-op. -/
theorem on_start_disabled (cfg : Config) (st : HookState) (c : StartCtx)
    (h : st.is_instrumented_by_opentelemetry = false) :
    on_start_resource_hook cfg st c = .ok (st, []) := by
  simp [on_start_resource_hook, h]

/-- With the flag cleared, the finalize callback is a no-op. -/
theorem before_finalize_disabled (cfg : Config) (st : HookState) (path : String)
    (h : st.is_instrumented_by_opentelemetry = false) :
    before_finalize_hook cfg st path = .ok (st, []) := by
  simp [before_finalize_hook, h]

/-- With the flag cleared, the response-ready callback is a no-op. -/
theorem on_end_resource_disabled (cfg : Config) (st : HookState) (path : String)
    (rc : ResponseCtx) (h : st.is_instrumented_by_opentelemetry = false) :
    on_end_resource_hook cfg st path rc = .ok (st, []) := by
  simp [on_end_resource_hook, h]

/-- With the flag cleared, the error-observation callback is a no-op. -/
theorem after_error_disabled (cfg : Config) (st : HookState) (path : String)
    (excInfo : Option Exc) (h : st.is_instrumented_by_opentelemetry = false) :
    after_error_response_hook cfg st path excInfo = .ok (st, []) := by
  simp [after_error_response_hook, h]

/-- With the flag cleared, the end callback is a no-op. -/
theorem on_end_request_disabled (cfg : Config) (st : HookState) (path : String)
    (now : ℚ) (h : st.is_instrumented_by_opentelemetry = false) :
    on_end_request_hook cfg st path now = .ok (st, []) := by
  simp [on_end_request_hook, h]

/-- C1: for every request that is not excluded and not disabled, the
lifecycle adds exactly one `+1` and exactly one `-1` to the
`http.server.active_requests` up-down counter, both with the
active-request attribute subset captured at request start, so the net
counter effect of a completed request is zero — also on error paths
(arbitrary `errorStep`). -/
theorem active_requests_net_zero (cfg : Config) (st : HookState)
    (sc : StartCtx) (rc : ResponseCtx) (errorStep : Option (Option Exc)) (endNow : ℚ)
    (hx : url_disabled cfg.excluded_urls sc.environ.pathInfo = false)
    (hi : st.is_instrumented_by_opentelemetry = true) :
    ∃ st2 es, runLifecycle cfg st sc rc errorStep endNow = .ok (st2, es) ∧
      es.filter isCounterEffect =
        [Effect.counterAdd 1
          (parse_active_request_count_attrs (collect_request_attributes sc.environ)),
         Effect.counterAdd (-1)
          (parse_active_request_count_attrs (collect_request_attributes sc.environ))] ∧
      netCounter es = 0 := by
  obtain ⟨flag, rec⟩ := st
  have hf : flag = true := hi
  subst hf
  refine ⟨_, _, runLifecycle_eligible cfg true rec sc rc errorStep endNow hx rfl, ?_, ?_⟩
  · simp [List.filter_append, filter_counter_startEffects, filter_counter_bfEffects,
          filter_counter_customRespEffects, filter_counter_endRequestEffects,
          List.filter_cons, isCounterEffect]
  · rw [← netCounter_filter]
    simp [List.filter_append, filter_counter_startEffects, filter_counter_bfEffects,
          filter_counter_customRespEffects, filter_counter_endRequestEffects,
          List.filter_cons, isCounterEffect, netCounter, counterDelta]

/-- C1 witness: a concrete erroring request balances the counter. -/
theorem active_requests_net_zero_witness :
    ∃ st2 es, runLifecycle cfg0 st0 scA rcA (some (some excBoom)) 3 = .ok (st2, es) ∧
      es.filter isCounterEffect =
        [Effect.counterAdd 1
          (parse_active_request_count_attrs (collect_request_attributes scA.environ)),
         Effect.counterAdd (-1)
          (parse_active_request_count_attrs (collect_request_attributes scA.environ))] ∧
      netCounter es = 0 :=
  active_requests_net_zero cfg0 st0 scA rcA (some (some excBoom)) 3 (by decide) rfl

/-- C2: the per-request record lives on the single shared tool instance,
not in request-scoped storage — interleaving the start callbacks of two
requests A and B makes A's end callback consume B's record: it
decrements the counter with B's attribute subset (which differs from
A's) and exits B's span activation. -/
theorem shared_record_interleaving_clobbers :
    ∃ s1 e1 s2 e2 s3 e3,
      on_start_resource_hook cfg0 st0 scA = .ok (s1, e1) ∧
      on_start_resource_hook cfg0 s1 scB = .ok (s2, e2) ∧
      e1.filter isCounterEffect =
        [Effect.counterAdd 1 (parse_active_request_count_attrs (collect_request_attributes envA))] ∧
      on_end_request_hook cfg0 s2 "/a" 1 = .ok (s3, e3) ∧
      e3.filter isCounterEffect =
        [Effect.counterAdd (-1) (parse_active_request_count_attrs (collect_request_attributes envB))] ∧
      e3.filter isActivationExit = [Effect.activationExit scB.span.id none] ∧
      parse_active_request_count_attrs (collect_request_attributes envB) ≠
        parse_active_request_count_attrs (collect_request_attributes envA) := by
  refine ⟨_, _, _, _, _, _, rfl, rfl, ?_, rfl, ?_, ?_, ?_⟩ <;> decide

/-- C3: the constructor pops the key `metr_provider`, not
`meter_provider` — a supplied `meter_provider` keyword is ignored and
the meter falls back to the process-wide global provider; the
instrument names and units, the `tracer_provider` option and the
unset-defaults behave as specified. -/
theorem init_meter_provider_key :
    (hook_init [("meter_provider", 7)]).meter_provider = none ∧
    (hook_init [("metr_provider", 7)]).meter_provider = some 7 ∧
    (hook_init []).meter_provider = none ∧
    (hook_init []).tracer_provider = none ∧
    (hook_init [("tracer_provider", 5)]).tracer_provider = some 5 ∧
    (hook_init [("meter_provider", 7)]).histogram_name = "http.server.duration" ∧
    (hook_init [("meter_provider", 7)]).histogram_unit = "ms" ∧
    (hook_init [("meter_provider", 7)]).counter_name = "http.server.active_requests" ∧
    (hook_init [("meter_provider", 7)]).counter_unit = "requests" := by
  refine ⟨?_, ?_, ?_, ?_, ?_, ?_, ?_, ?_, ?_⟩ <;> decide

/-- C4: direct decoration `expose(handler)` wraps the handler (function,
method or class) and exposes it, but the parameterized form
`expose(alias=...)` returns the outer expose wrapper itself, so applying
it to a handler re-enters with the default `alias=None` and the given
alias is dropped instead of preserved. -/
theorem parameterized_expose_drops_alias :
    parameterized_expose_apply (some "users") (Handler.func 0) =
      ExposeResult.exposed { handler := Handler.func 0, wrapped := true, aliasName := none } ∧
    instrumented_expose (some (Handler.func 0)) (some "users") =
      ExposeResult.exposed { handler := Handler.func 0, wrapped := true, aliasName := some "users" } ∧
    instrumented_expose (some (Handler.method 1)) none =
      ExposeResult.exposed { handler := Handler.method 1, wrapped := true, aliasName := none } ∧
    instrumented_expose (some (Handler.cls 2)) none =
      ExposeResult.exposed { handler := Handler.cls 2, wrapped := true, aliasName := none } ∧
    instrumented_expose none (some "users") = ExposeResult.returnedSelf := by
  refine ⟨?_, ?_, ?_, ?_, ?_⟩ <;> decide

/-- C5: for an eligible request the end callback exits the span
activation passing exactly the exception captured by the
error-observation callback (or no exception if none was captured); by
the activation contract the span status is ERROR exactly when an
exception was captured and UNSET otherwise; the captured exception is
stored unaltered in the final state. -/
theorem span_exit_carries_captured_exception (cfg : Config) (st : HookState)
    (sc : StartCtx) (rc : ResponseCtx) (errorStep : Option (Option Exc)) (endNow : ℚ)
    (hx : url_disabled cfg.excluded_urls sc.environ.pathInfo = false)
    (hi : st.is_instrumented_by_opentelemetry = true) :
    ∃ st2 es, runLifecycle cfg st sc rc errorStep endNow = .ok (st2, es) ∧
      es.filter isActivationExit =
        [Effect.activationExit sc.span.id (errorStep.getD none)] ∧
      st2.record.exception = some (errorStep.getD none) ∧
      (∀ e : Exc, errorStep.getD none = some e →
        activation_exit_status (errorStep.getD none) = SpanStatusCode.error) ∧
      (errorStep.getD none = none →
        activation_exit_status (errorStep.getD none) = SpanStatusCode.unset) := by
  obtain ⟨flag, rec⟩ := st
  have hf : flag = true := hi
  subst hf
  refine ⟨_, _, runLifecycle_eligible cfg true rec sc rc errorStep endNow hx rfl,
    ?_, ?_, ?_, ?_⟩
  · simp [List.filter_append, filter_exit_startEffects, filter_exit_bfEffects,
          filter_exit_customRespEffects, filter_exit_endRequestEffects,
          List.filter_cons, isActivationExit]
  · simp [finalState]
  · intro e he
    simp [he, activation_exit_status]
  · intro he
    simp [he, activation_exit_status]

/-- C5 witness: a concrete request with a captured handler exception. -/
theorem span_exit_carries_captured_exception_witness :
    ∃ st2 es, runLifecycle cfg0 st0 scB rcA (some (some excBoom)) 3 = .ok (st2, es) ∧
      es.filter isActivationExit =
        [Effect.activationExit scB.span.id ((some (some excBoom) : Option (Option Exc)).getD none)] ∧
      st2.record.exception = some ((some (some excBoom) : Option (Option Exc)).getD none) ∧
      (∀ e : Exc, (some (some excBoom) : Option (Option Exc)).getD none = some e →
        activation_exit_status ((some (some excBoom) : Option (Option Exc)).getD none) = SpanStatusCode.error) ∧
      ((some (some excBoom) : Option (Option Exc)).getD none = none →
        activation_exit_status ((some (some excBoom) : Option (Option Exc)).getD none) = SpanStatusCode.unset) :=
  span_exit_carries_captured_exception cfg0 st0 scB rcA (some (some excBoom)) 3 (by decide) rfl

/-- C6: for an eligible request-end callback on a populated record, the
value recorded on the duration histogram is exactly
`max(round((now - start) * 1000), 0)` for the monotonic start reading,
and is therefore a nonnegative integer. -/
theorem duration_recorded_formula (cfg : Config) (st : HookState) (path : String)
    (now : ℚ) (sp : Spn) (tk : Option Nat) (act : Nat) (t0 : ℚ) (exc : Option Exc)
    (da ara : Attrs)
    (hx : url_disabled cfg.excluded_urls path = false)
    (hi : st.is_instrumented_by_opentelemetry = true)
    (hrec : st.record = { span := some sp, token := some tk, activation := some act,
                          start := some t0, exception := some exc,
                          duration_attrs := some da,
                          active_requests_count_attrs := some ara }) :
    ∃ es, on_end_request_hook cfg st path now = .ok (st, es) ∧
      es.filter isHistogramRecord = [Effect.histogramRecord (elapsedMs now t0) da] ∧
      elapsedMs now t0 = max (pyRound ((now - t0) * 1000)) 0 ∧
      0 ≤ elapsedMs now t0 := by
  obtain ⟨flag, rec⟩ := st
  have hf : flag = true := hi
  subst hf
  have hr : rec = { span := some sp, token := some tk, activation := some act,
                    start := some t0, exception := some exc,
                    duration_attrs := some da,
                    active_requests_count_attrs := some ara } := hrec
  subst hr
  refine ⟨[Effect.activationExit act exc]
      ++ (match tk with | some t => [Effect.detachToken t] | none => [])
      ++ [Effect.histogramRecord (elapsedMs now t0) da, Effect.counterAdd (-1) ara],
    ?_, ?_, rfl, le_max_right _ _⟩
  · cases tk <;> simp [on_end_request_hook, hx, elapsedMs]
  · cases tk <;> simp [isHistogramRecord]

/-- C6 witness: a concrete request-end computes the duration formula. -/
theorem duration_recorded_formula_witness :
    ∃ es, on_end_request_hook cfg0
        { is_instrumented_by_opentelemetry := true,
          record := { span := some spanA, token := some (some 11), activation := some 1,
                      start := some 0, exception := some none,
                      duration_attrs := some [("http.method", "GET")],
                      active_requests_count_attrs := some [("http.method", "GET")] } }
        "/a" 2 =
      .ok ({ is_instrumented_by_opentelemetry := true,
             record := { span := some spanA, token := some (some 11), activation := some 1,
                         start := some 0, exception := some none,
                         duration_attrs := some [("http.method", "GET")],
                         active_requests_count_attrs := some [("http.method", "GET")] } }, es) ∧
      es.filter isHistogramRecord =
        [Effect.histogramRecord (elapsedMs 2 0) [("http.method", "GET")]] ∧
      elapsedMs 2 0 = max (pyRound ((2 - 0) * 1000)) 0 ∧
      0 ≤ elapsedMs 2 0 :=
  duration_recorded_formula cfg0 _ "/a" 2 spanA (some 11) 1 0 none
    [("http.method", "GET")] [("http.method", "GET")] (by decide) rfl rfl

/-- C7: a request whose path matches the exclusion policy makes all five
lifecycle callbacks return immediately: state unchanged (no record field
populated) and no effect (no span, no metric event), regardless of the
request's outcome. -/
theorem excluded_url_all_noop (cfg : Config) (st : HookState) (sc : StartCtx)
    (rc : ResponseCtx) (excInfo : Option Exc) (now : ℚ)
    (hx : url_disabled cfg.excluded_urls sc.environ.pathInfo = true) :
    on_start_resource_hook cfg st sc = .ok (st, []) ∧
    before_finalize_hook cfg st sc.environ.pathInfo = .ok (st, []) ∧
    on_end_resource_hook cfg st sc.environ.pathInfo rc = .ok (st, []) ∧
    after_error_response_hook cfg st sc.environ.pathInfo excInfo = .ok (st, []) ∧
    on_end_request_hook cfg st sc.environ.pathInfo now = .ok (st, []) := by
  refine ⟨?_, ?_, ?_, ?_, ?_⟩ <;>
    simp [on_start_resource_hook, before_finalize_hook, on_end_resource_hook,
          after_error_response_hook, on_end_request_hook, hx]

/-- C7 witness: a request to the excluded path `/ping`. -/
theorem excluded_url_all_noop_witness :
    on_start_resource_hook cfgPing st0 scPing = .ok (st0, []) ∧
    before_finalize_hook cfgPing st0 scPing.environ.pathInfo = .ok (st0, []) ∧
    on_end_resource_hook cfgPing st0 scPing.environ.pathInfo rcA = .ok (st0, []) ∧
    after_error_response_hook cfgPing st0 scPing.environ.pathInfo (some excBoom) = .ok (st0, []) ∧
    on_end_request_hook cfgPing st0 scPing.environ.pathInfo 1 = .ok (st0, []) :=
  excluded_url_all_noop cfgPing st0 scPing rcA (some excBoom) 1 (by decide)

/-- C8 counterexample: on a fresh instance whose request-start callback
never ran, the response-ready callback raises AttributeError reading
`self.span` and the request-end callback raises AttributeError reading
`self.exception` — so not every later callback completes without
raising. -/
theorem late_hooks_missing_start_counterexample :
    on_end_resource_hook cfg0 st0 "/" rcA = .error (PyErr.attributeError "span") ∧
    on_end_request_hook cfg0 st0 "/" 0 = .error (PyErr.attributeError "exception") :=
  ⟨rfl, rfl⟩

/-- C8 amended: under a malformed invocation order with no record fields
set, the before-finalize and error-observation callbacks complete
without raising, but the response-ready and request-end callbacks raise
AttributeError on the first missing record attribute. -/
theorem late_hooks_missing_start (cfg : Config) (st : HookState) (path : String)
    (rc : ResponseCtx) (excInfo : Option Exc) (now : ℚ)
    (hx : url_disabled cfg.excluded_urls path = false)
    (hi : st.is_instrumented_by_opentelemetry = true)
    (hr : st.record = emptyRecord) :
    before_finalize_hook cfg st path = .ok (st, bfEffects cfg) ∧
    after_error_response_hook cfg st path excInfo =
      .ok ({ st with record := { st.record with exception := some excInfo } }, []) ∧
    on_end_resource_hook cfg st path rc = .error (PyErr.attributeError "span") ∧
    on_end_request_hook cfg st path now = .error (PyErr.attributeError "exception") := by
  obtain ⟨flag, rec⟩ := st
  have hf : flag = true := hi
  subst hf
  have hrec : rec = emptyRecord := hr
  subst hrec
  refine ⟨?_, ?_, ?_, ?_⟩ <;>
    cases hp : cfg.has_response_propagator <;>
    simp [before_finalize_hook, after_error_response_hook, on_end_resource_hook,
          on_end_request_hook, hx, hp, bfEffects, emptyRecord]

/-- C8 witness: the amended behaviour at a concrete fresh state. -/
theorem late_hooks_missing_start_witness :
    before_finalize_hook cfg0 st0 "/x" = .ok (st0, bfEffects cfg0) ∧
    after_error_response_hook cfg0 st0 "/x" (some excBoom) =
      .ok ({ st0 with record := { st0.record with exception := some (some excBoom) } }, []) ∧
    on_end_resource_hook cfg0 st0 "/x" rcA = .error (PyErr.attributeError "span") ∧
    on_end_request_hook cfg0 st0 "/x" 1 = .error (PyErr.attributeError "exception") :=
  late_hooks_missing_start cfg0 st0 "/x" rcA (some excBoom) 1 (by decide) rfl rfl

/-- C9: uninstallation only clears the enabled flag; afterwards the full
lifecycle of any request is a no-op returning an unchanged state and an
empty effect trace (no span, no metric event), while the exposed
handlers, the expose wrapper and the tool registration are untouched. -/
theorem uninstrument_disables_all (s : InstrumentorState) (cfg : Config)
    (sc : StartCtx) (rc : ResponseCtx) (errorStep : Option (Option Exc)) (endNow : ℚ) :
    runLifecycle cfg (uninstrument s).hook sc rc errorStep endNow =
      .ok ((uninstrument s).hook, []) ∧
    (uninstrument s).hook.is_instrumented_by_opentelemetry = false ∧
    (uninstrument s).exposedHandlers = s.exposedHandlers ∧
    (uninstrument s).exposeWrapped = s.exposeWrapped ∧
    (uninstrument s).toolRegistered = s.toolRegistered := by
  refine ⟨?_, rfl, rfl, rfl, rfl⟩
  have h : (uninstrument s).hook.is_instrumented_by_opentelemetry = false := rfl
  cases errorStep <;>
    simp [runLifecycle, on_start_disabled _ _ _ h, before_finalize_disabled _ _ _ h,
          on_end_resource_disabled _ _ _ _ h, after_error_disabled _ _ _ _ h,
          on_end_request_disabled _ _ _ _ h,
          Bind.bind, Except.bind, Functor.map, Except.map, Pure.pure, Except.pure]

/-- C10: every eligible request-start callback leaves the
captured-exception field reset to None, so even if the hook state still
holds an exception from an earlier request, a later request whose
handler raises nothing has its span activation exited cleanly (status
UNSET). -/
theorem exception_reset_on_start (cfg : Config) (st : HookState) (sc : StartCtx)
    (endNow : ℚ) (e : Exc)
    (hx : url_disabled cfg.excluded_urls sc.environ.pathInfo = false)
    (hi : st.is_instrumented_by_opentelemetry = true)
    (hprev : st.record.exception = some (some e)) :
    ∃ s1, on_start_resource_hook cfg st sc = .ok (s1, startEffects cfg sc) ∧
      s1.record.exception = some none ∧
      on_end_request_hook cfg s1 sc.environ.pathInfo endNow =
        .ok (s1, endRequestEffects sc none
              (parse_duration_attrs (collect_request_attributes sc.environ)) endNow) ∧
      (endRequestEffects sc none
          (parse_duration_attrs (collect_request_attributes sc.environ)) endNow).filter
          isActivationExit = [Effect.activationExit sc.span.id none] ∧
      activation_exit_status none = SpanStatusCode.unset := by
  obtain ⟨flag, rec⟩ := st
  have hf : flag = true := hi
  subst hf
  refine ⟨⟨true, startedRecord sc⟩, ?_, rfl, ?_,
    filter_exit_endRequestEffects sc none _ endNow, rfl⟩
  · simp [on_start_resource_hook, hx]
  · cases h : sc.token <;>
      simp [on_end_request_hook, hx, startedRecord, endRequestEffects, h, elapsedMs]

/-- C10 witness: a state still holding an earlier exception is reset at
request start, and the request closes cleanly. -/
theorem exception_reset_on_start_witness :
    ∃ s1, on_start_resource_hook cfg0 stWithExc scA = .ok (s1, startEffects cfg0 scA) ∧
      s1.record.exception = some none ∧
      on_end_request_hook cfg0 s1 scA.environ.pathInfo 2 =
        .ok (s1, endRequestEffects scA none
              (parse_duration_attrs (collect_request_attributes scA.environ)) 2) ∧
      (endRequestEffects scA none
          (parse_duration_attrs (collect_request_attributes scA.environ)) 2).filter
          isActivationExit = [Effect.activationExit scA.span.id none] ∧
      activation_exit_status none = SpanStatusCode.unset :=
  exception_reset_on_start cfg0 stWithExc scA 2 excBoom (by decide) rfl rfl

end CherryPyOtel
